import Mathlib

/-!
Verification development for the sales-data ETL transform and data-quality
core (`src/transform.py`, `src/cache_manager.py`,
`src/data_quality/quality_checker.py`).

Modelling conventions:
* a pandas DataFrame is a list of named columns, each column a list of cells
  (`DF`); rows are recovered positionally;
* a cell is a rational number, a date (count of days), a signed float
  infinity, or a missing value (`NaN`/`NaT` are both `Cell.null`); exact
  rationals stand for the finite floats of the source; infinities (the
  result of dividing a nonzero float by zero) are a distinct, non-missing
  cell kind, since `pd.isna(inf)` is false;
* pandas reductions (`mean`, `std`) skip missing values, as in the source;
  `std` uses the sample denominator `n - 1` (pandas default `ddof=1`) and is
  undefined (`none`, pandas `NaN`) for fewer than two values;
* the outlier condition `|v - mean| <= 3 * std` of the source is expressed
  on squares, `(v - mean)^2 <= 9 * var`, which is equivalent because both
  sides of the original comparison are nonnegative; comparisons against an
  undefined (`NaN`) bound are false, as in IEEE semantics;
* fallible operations (a `KeyError` on a missing column) return `Option`.
-/

/-- Cell of a DataFrame: a finite numeric value, a date (days since an
arbitrary epoch), a signed float infinity (`inf true` is `+inf`,
`inf false` is `-inf` — produced by float division of a nonzero numerator
by zero and *not* a missing value, as `pd.isna(inf)` is false), or a
missing value (pandas `NaN`/`NaT`). -/
inductive Cell where
  | num (q : ℚ)
  | date (d : ℤ)
  | inf (pos : Bool)
  | null
deriving DecidableEq, Repr

/-- DataFrame: ordered association list of column name to cell list.  All
columns of a well-formed frame have the same length. -/
abbrev DF : Type := List (String × List Cell)

/-- Number of rows, read off the first column (`len(df)`). -/
def nRows (df : DF) : ℕ :=
  match df with
  | [] => 0
  | c :: _ => c.2.length

/-- Column lookup, `df[name]`; `none` models the `KeyError` raised by the
source on a missing column. -/
def getCol (df : DF) (name : String) : Option (List Cell) :=
  (df.find? (fun c => c.1 == name)).map (fun c => c.2)

/-- Membership test `name in df.columns`. -/
def hasCol (df : DF) (name : String) : Bool :=
  df.any (fun c => c.1 == name)

/-- Column assignment `df[name] = cells`: replaces the column in place when
present, otherwise appends it on the right, as pandas does. -/
def setCol (df : DF) (name : String) (cells : List Cell) : DF :=
  if hasCol df name then
    df.map (fun c => if c.1 == name then (name, cells) else c)
  else
    df ++ [(name, cells)]

/-- All columns have the same length (well-formed frame). -/
def alignedB (df : DF) : Bool :=
  df.all (fun c => c.2.length == nRows df)

/-- Row `i` of the frame, as the list of its cells in column order. -/
def rowAt (df : DF) (i : ℕ) : List Cell :=
  df.map (fun c => c.2.getD i Cell.null)

/-- All rows of the frame, in order. -/
def rowsOf (df : DF) : List (List Cell) :=
  (List.range (nRows df)).map (rowAt df)

/-- Count of rows equal to an earlier row, with missing values comparing
equal — the semantics of `df.duplicated().sum()`. -/
def dupCountAux : List (List Cell) → List (List Cell) → ℕ
  | _, [] => 0
  | seen, r :: rs => (if r ∈ seen then 1 else 0) + dupCountAux (r :: seen) rs

/-- Count of duplicate rows in a row list (`df.duplicated().sum()`). -/
def dupCount (rs : List (List Cell)) : ℕ :=
  dupCountAux [] rs

/-- Finite-numeric view of a cell: the rational behind a finite float,
`none` for missing content and for an infinity (no arithmetic, reduction
or comparison of the modelled flows ever consumes an infinity — in the
source an infinity appears only in the `profit_margin` output column). -/
def toNum : Cell → Option ℚ
  | Cell.num q => some q
  | _ => none

/-- Date view of a cell: `pd.to_datetime(_, errors="coerce")`.  A numeric
cell converts (pandas reads numbers as epoch offsets, here floored to a
day); missing stays missing (`NaT`). -/
def toDate : Cell → Option ℤ
  | Cell.date d => some d
  | Cell.num q => some ⌊q⌋
  | Cell.inf _ => none
  | Cell.null => none

/-- Non-missing numeric values of a column, in order (what `skipna`
reductions see). -/
def numsOf (cells : List Cell) : List ℚ :=
  cells.filterMap toNum

/-- Column mean with `skipna=True`: `df[col].mean()`; `NaN` (`none`) on a
column without numeric values. -/
def meanOpt (cells : List Cell) : Option ℚ :=
  let vs := numsOf cells
  if vs.length = 0 then none else some (vs.sum / (vs.length : ℚ))

/-- Column sample variance, the square of `df[col].std()` (pandas default
`ddof=1`): `none` (pandas `NaN`) for fewer than two numeric values. -/
def sampleVarOpt (cells : List Cell) : Option ℚ :=
  let vs := numsOf cells
  if vs.length ≤ 1 then none
  else
    let m := vs.sum / (vs.length : ℚ)
    some ((vs.map (fun v => (v - m) ^ 2)).sum / ((vs.length : ℚ) - 1))

/-- Population variance (denominator `n`), the square of the population
standard deviation named by the specification; defined for any nonempty
value list. -/
def popVarOpt (cells : List Cell) : Option ℚ :=
  let vs := numsOf cells
  if vs.length = 0 then none
  else
    let m := vs.sum / (vs.length : ℚ)
    some ((vs.map (fun v => (v - m) ^ 2)).sum / (vs.length : ℚ))

/-- Outlier keep-condition `np.abs(v - mean) <= 3 * std`, stated on squares
(`std = sqrt var`, both sides nonnegative).  Comparisons involving a missing
value or an undefined deviation are false, so such rows are dropped, exactly
as the `NaN` comparisons of the source behave. -/
def keepCell (m : ℚ) (v : Option ℚ) (var : Option ℚ) : Bool :=
  match v, var with
  | some v, some s2 => decide ((v - m) ^ 2 ≤ 9 * s2)
  | _, _ => false

/-- Keep the cells of a column selected by a boolean mask (row filtering
`df = df[mask]` applied to one column). -/
def maskList (cells : List Cell) (mask : List Bool) : List Cell :=
  (cells.zip mask).filterMap (fun p => if p.2 then some p.1 else none)

/-- Row filtering `df = df[mask]` across every column. -/
def applyMask (df : DF) (mask : List Bool) : DF :=
  df.map (fun c => (c.1, maskList c.2 mask))

/-- One outlier-removal pass of `clean_data`, with the variance estimator a
parameter (the source uses the sample variance; the specification's words
name the population variance):
`mean = df[col].mean(); std = df[col].std();`
`df = df[np.abs(df[col] - mean) <= 3 * std]`. -/
def outlierPassWith (variance : List Cell → Option ℚ) (df : DF)
    (col : String) : Option DF := do
  let cells ← getCol df col
  let m := (meanOpt cells).getD 0
  let s2 := variance cells
  let mask := cells.map (fun c => keepCell m (toNum c) s2)
  pure (applyMask df mask)

/-- Outlier-removal pass as the source performs it (`pandas.std`,
`ddof=1`). -/
def outlierPass (df : DF) (col : String) : Option DF :=
  outlierPassWith sampleVarOpt df col

/-- Missing-value fill `df[col].fillna(v)`. -/
def fillCells (cells : List Cell) (v : ℚ) : List Cell :=
  cells.map (fun c => if c = Cell.null then Cell.num v else c)

/-- Fill of the `unit_price` column,
`df["unit_price"].fillna(df["unit_price"].mean())`: filling with `NaN`
(mean of an all-missing column) leaves the column unchanged. -/
def fillWithMean (cells : List Cell) : List Cell :=
  match meanOpt cells with
  | some m => fillCells cells m
  | none => cells

/-- Computational core of `SalesDataTransformer.clean_data` (the `try`
block of `transform.py`, lines 66-83, without the cache wrapper): fill
missing `quantity`/`discount` with 0 and `unit_price` with its column mean,
then drop 3-sigma outliers sequentially for `quantity`, `unit_price`,
`total_sales`.  `none` models the `KeyError` on a missing column. -/
def cleanData (df : DF) : Option DF := do
  let q ← getCol df "quantity"
  let df1 := setCol df "quantity" (fillCells q 0)
  let p ← getCol df1 "unit_price"
  let df2 := setCol df1 "unit_price" (fillWithMean p)
  let d ← getCol df2 "discount"
  let df3 := setCol df2 "discount" (fillCells d 0)
  let df4 ← outlierPassWith sampleVarOpt df3 "quantity"
  let df5 ← outlierPassWith sampleVarOpt df4 "unit_price"
  outlierPassWith sampleVarOpt df5 "total_sales"

/-- Modelled from the spec: the cleaning step as §4.2 of the specification
words it, generic in the variance estimator used for the "standard
deviation σ": fill missing values (`quantity` 0, `unit_price` column mean,
`discount` 0), then for each of `quantity`, `unit_price`, `total_sales`
drop every row with `|value − μ| > 3σ` over the progressively filtered
data. -/
def specCleanWith (variance : List Cell → Option ℚ) (df : DF) :
    Option DF := do
  let q ← getCol df "quantity"
  let df1 := setCol df "quantity" (fillCells q 0)
  let p ← getCol df1 "unit_price"
  let df2 := setCol df1 "unit_price" (fillWithMean p)
  let d ← getCol df2 "discount"
  let df3 := setCol df2 "discount" (fillCells d 0)
  let df4 ← outlierPassWith variance df3 "quantity"
  let df5 ← outlierPassWith variance df4 "unit_price"
  outlierPassWith variance df5 "total_sales"

/-- Modelled from the spec: cleaning with the population standard deviation
(denominator `n`), as the specification literally states. -/
def specCleanPop (df : DF) : Option DF :=
  specCleanWith popVarOpt df

/-- Modelled from the spec, amended: cleaning with the sample standard
deviation (`ddof=1`, denominator `n − 1`, undefined for fewer than two
values), matching `pandas.std`. -/
def specCleanSamp (df : DF) : Option DF :=
  specCleanWith sampleVarOpt df

/-- Elementwise product of two cell series (`df[a] * df[b]`); a missing
operand yields a missing result, as `NaN` propagates. -/
def cMul (a b : Cell) : Cell :=
  match toNum a, toNum b with
  | some x, some y => Cell.num (x * y)
  | _, _ => Cell.null

/-- Elementwise difference of two cell series; `NaN` propagates. -/
def cSub (a b : Cell) : Cell :=
  match toNum a, toNum b with
  | some x, some y => Cell.num (x - y)
  | _, _ => Cell.null

/-- Elementwise quotient of two cell series, with IEEE float zero-divisor
semantics: `0 / 0` yields `NaN` (the missing value), a nonzero numerator
over zero yields the correspondingly signed infinity (a present,
non-missing value), and a missing operand propagates.  The operation never
raises. -/
def cDiv (a b : Cell) : Cell :=
  match toNum a, toNum b with
  | some x, some y =>
    if y = 0 then
      if x = 0 then Cell.null else Cell.inf (decide (0 < x))
    else Cell.num (x / y)
  | _, _ => Cell.null

/-- Series `df["quantity"] * df["unit_price"] * (1 - df["discount"])`,
shared by `calculate_metrics` and `check_consistency`. -/
def expectedTotals (q p d : List Cell) : List Cell :=
  List.zipWith (fun gp dd => cMul gp (cSub (Cell.num 1) dd))
    (List.zipWith cMul q p) d

/-- Computational core of `SalesDataTransformer.calculate_metrics`
(`transform.py`, lines 135-154, without the cache wrapper): add
`total_sales` when absent, then `gross_sales`, `discount_amount` and
`profit_margin`.  `none` models the `KeyError` on a missing input
column. -/
def calculateMetrics (df : DF) : Option DF := do
  let df0 ←
    if hasCol df "total_sales" then pure df
    else do
      let q ← getCol df "quantity"
      let p ← getCol df "unit_price"
      let d ← getCol df "discount"
      pure (setCol df "total_sales" (expectedTotals q p d))
  let q ← getCol df0 "quantity"
  let p ← getCol df0 "unit_price"
  let df1 := setCol df0 "gross_sales" (List.zipWith cMul q p)
  let g ← getCol df1 "gross_sales"
  let d ← getCol df1 "discount"
  let df2 := setCol df1 "discount_amount" (List.zipWith cMul g d)
  let t ← getCol df2 "total_sales"
  let da ← getCol df2 "discount_amount"
  let g2 ← getCol df2 "gross_sales"
  pure (setCol df2 "profit_margin"
    (List.zipWith cDiv (List.zipWith cSub t da) g2))

/-- Computational core of `SalesDataTransformer.validate_dates`
(`transform.py`, lines 103-115): convert the `date` column to datetimes
and drop rows whose date lies strictly after `now`.  A missing date
(`NaT`) compares false and is dropped, as in the source. -/
def validateDates (now : ℤ) (df : DF) : Option DF := do
  let dates ← getCol df "date"
  let conv := dates.map (fun c =>
    match toDate c with
    | some d => Cell.date d
    | none => Cell.null)
  let df1 := setCol df "date" conv
  let mask := conv.map (fun c =>
    match toDate c with
    | some d => decide (d ≤ now)
    | none => false)
  pure (applyMask df1 mask)

/-- Whitespace trim on a character list (`str.strip()`): drop leading and
trailing whitespace. -/
def trimChars (l : List Char) : List Char :=
  ((l.dropWhile Char.isWhitespace).reverse.dropWhile
    Char.isWhitespace).reverse

/-- Column-name normalization of `standardize_columns`:
`col.lower().strip().replace(" ", "_")` — lower-case, trim, then replace
each space (the single-character pattern) by an underscore. -/
def normName (s : String) : String :=
  String.mk ((trimChars (s.toList.map Char.toLower)).map
    (fun c => if c = ' ' then '_' else c))

/-- Rounding of `df.round(2)` on a numeric cell.  The source rounds floats
(numpy half-to-even); the modelled flows never hit a half-way tie, where
the two rules differ, so the rational half-up rounding is used. -/
def round2 (q : ℚ) : ℚ :=
  (round (q * 100) : ℤ) / 100

/-- Rounding applied to one cell; missing values stay missing
(`NaN.round() == NaN`). -/
def roundCell : Cell → Cell
  | Cell.num q => Cell.num (round2 q)
  | c => c

/-- Numeric-dtype test for `select_dtypes(include=[np.number])`: a column
holds a numeric dtype when no cell is a date (a column of numbers and
missing values is a float column and is rounded). -/
def isNumericCol (cells : List Cell) : Bool :=
  cells.all (fun c =>
    match c with
    | Cell.date _ => false
    | _ => true)

/-- Computational core of `SalesDataTransformer.standardize_columns`
(`transform.py`, lines 174-187): normalize the column names and round the
numeric columns to two decimals. -/
def standardizeCols (df : DF) : DF :=
  df.map (fun c =>
    (normName c.1, if isNumericCol c.2 then c.2.map roundCell else c.2))

/-- Quality metric record of `quality_checker.py` (`QualityMetric`). -/
structure QualityMetric where
  name : String
  value : ℚ
  threshold : ℚ
  passed : Bool
  description : String
deriving DecidableEq, Repr

/-- DataQualityChecker.check_completeness (`quality_checker.py`, lines
49-97): overall and per-column completeness percentages.  The issue
records it also appends are reporting side data no claim depends on and
are not modelled. -/
def checkCompleteness (df : DF) : List QualityMetric :=
  let n := nRows df
  let totalCells := n * df.length
  let nonNull := (df.map (fun c =>
    c.2.countP (fun cell => !(cell == Cell.null)))).sum
  let overallRate : ℚ := (nonNull : ℚ) / (totalCells : ℚ) * 100
  { name := "overall_completeness", value := overallRate, threshold := 95,
    passed := decide (overallRate ≥ 95),
    description := "Percentage of non-null values across all columns" } ::
  df.map (fun c =>
    let nullCount := c.2.countP (fun cell => cell == Cell.null)
    let rate : ℚ := ((n : ℚ) - (nullCount : ℚ)) / (n : ℚ) * 100
    let thr : ℚ := if c.1 == "date" || c.1 == "product_id" then 99 else 95
    { name := "completeness_" ++ c.1, value := rate, threshold := thr,
      passed := decide (rate ≥ thr),
      description := "Completeness percentage for column " ++ c.1 })

/-- DataQualityChecker.check_accuracy (`quality_checker.py`, lines
99-165): the share of parseable dates in `date` and of parseable numbers
in each present numeric column. -/
def checkAccuracy (df : DF) : List QualityMetric :=
  let n := nRows df
  (match getCol df "date" with
   | some cells =>
     let invalid := cells.countP (fun c => (toDate c).isNone)
     let rate : ℚ := ((n : ℚ) - (invalid : ℚ)) / (n : ℚ) * 100
     [{ name := "date_accuracy", value := rate, threshold := 99,
        passed := decide (rate ≥ 99),
        description := "Percentage of valid date values" }]
   | none => []) ++
  (["quantity", "unit_price", "discount", "total_sales"].filterMap
    (fun col =>
      match getCol df col with
      | some cells =>
        let invalid := cells.countP (fun c => (toNum c).isNone)
        let rate : ℚ := ((n : ℚ) - (invalid : ℚ)) / (n : ℚ) * 100
        some { name := "numeric_accuracy_" ++ col, value := rate,
               threshold := 99, passed := decide (rate ≥ 99),
               description := "Percentage of valid numeric values in " ++ col }
      | none => none))

/-- Row test of the calculation-consistency check:
`abs(df["total_sales"] - expected_total) > tolerance` with
`tolerance = 0.01`; a comparison against a missing value is false, so such
rows count as consistent, as `NaN > 0.01` does in the source. -/
def inconsistentPair (t e : Cell) : Bool :=
  match toNum t, toNum e with
  | some tv, some ev => decide (|tv - ev| > 1 / 100)
  | _, _ => false

/-- DataQualityChecker.check_consistency (`quality_checker.py`, lines
167-240): calculation consistency of `total_sales` against
`quantity * unit_price * (1 - discount)` when all four columns are
present, and row uniqueness. -/
def checkConsistency (df : DF) : List QualityMetric :=
  let n := nRows df
  (match getCol df "quantity", getCol df "unit_price",
         getCol df "discount", getCol df "total_sales" with
   | some q, some p, some d, some t =>
     let expected := expectedTotals q p d
     let incon := (t.zip expected).countP
       (fun pr => inconsistentPair pr.1 pr.2)
     let rate : ℚ := ((n : ℚ) - (incon : ℚ)) / (n : ℚ) * 100
     [{ name := "calculation_consistency", value := rate, threshold := 99,
        passed := decide (rate ≥ 99),
        description := "Percentage of records with consistent calculations" }]
   | _, _, _, _ => []) ++
  (let dup := dupCount (rowsOf df)
   let rate : ℚ := ((n : ℚ) - (dup : ℚ)) / (n : ℚ) * 100
   [{ name := "uniqueness", value := rate, threshold := 100,
      passed := decide (dup = 0),
      description := "Percentage of unique records" }])

/-- DataQualityChecker.check_validity (`quality_checker.py`, lines
242-322): quantity strictly positive, unit price nonnegative, discount in
`[0, 1]`, each only when its column is present; comparisons with missing
values are false and never count as violations. -/
def checkValidity (df : DF) : List QualityMetric :=
  let n := nRows df
  (match getCol df "quantity" with
   | some cells =>
     let bad := cells.countP (fun c =>
       match toNum c with
       | some v => decide (v ≤ 0)
       | none => false)
     let rate : ℚ := ((n : ℚ) - (bad : ℚ)) / (n : ℚ) * 100
     [{ name := "quantity_validity", value := rate, threshold := 100,
        passed := decide (bad = 0),
        description := "Percentage of records with valid quantities" }]
   | none => []) ++
  (match getCol df "unit_price" with
   | some cells =>
     let bad := cells.countP (fun c =>
       match toNum c with
       | some v => decide (v < 0)
       | none => false)
     let rate : ℚ := ((n : ℚ) - (bad : ℚ)) / (n : ℚ) * 100
     [{ name := "price_validity", value := rate, threshold := 100,
        passed := decide (bad = 0),
        description := "Percentage of records with valid prices" }]
   | none => []) ++
  (match getCol df "discount" with
   | some cells =>
     let bad := cells.countP (fun c =>
       match toNum c with
       | some v => decide (v < 0 ∨ v > 1)
       | none => false)
     let rate : ℚ := ((n : ℚ) - (bad : ℚ)) / (n : ℚ) * 100
     [{ name := "discount_validity", value := rate, threshold := 100,
        passed := decide (bad = 0),
        description := "Percentage of records with valid discounts" }]
   | none => [])

/-- DataQualityChecker.check_timeliness (`quality_checker.py`, lines
324-387): no future dates (strictly after `now`), and freshness within the
last 30 days, when the `date` column is present. -/
def checkTimeliness (now : ℤ) (df : DF) : List QualityMetric :=
  match getCol df "date" with
  | some cells =>
    let n := nRows df
    let future := cells.countP (fun c =>
      match toDate c with
      | some d => decide (now < d)
      | none => false)
    let trate : ℚ := ((n : ℚ) - (future : ℚ)) / (n : ℚ) * 100
    let old := cells.countP (fun c =>
      match toDate c with
      | some d => decide (d < now - 30)
      | none => false)
    let frate : ℚ := ((n : ℚ) - (old : ℚ)) / (n : ℚ) * 100
    [{ name := "timeliness", value := trate, threshold := 100,
       passed := decide (future = 0),
       description := "Percentage of records with valid dates" },
     { name := "freshness", value := frate, threshold := 80,
       passed := decide (frate ≥ 80),
       description := "Percentage of records from last 30 days" }]
  | none => []

/-- Category key of a metric inside `_calculate_overall_score`:
`metric.name.split("_")[0]`, the first token of the name truncated at the
first underscore — the characters before the first underscore (the whole
name when it has none). -/
def categoryKey (name : String) : String :=
  String.mk (name.toList.takeWhile (fun c => c ≠ '_'))

/-- Category weights of `_calculate_overall_score`. -/
def scoreWeights : List (String × ℚ) :=
  [("completeness", 25 / 100), ("accuracy", 25 / 100),
   ("consistency", 20 / 100), ("validity", 20 / 100),
   ("timeliness", 10 / 100)]

/-- DataQualityChecker._calculate_overall_score (`quality_checker.py`,
lines 419-447): zero on an empty metric list, otherwise the weighted sum
over the five categories of the mean value of the metrics whose category
key matches; a category without matching metrics contributes nothing.
The source first groups the metric values into a dictionary keyed by
category and then walks the weight table; walking the weight table and
filtering directly is the same computation. -/
def calculateOverallScore (ms : List QualityMetric) : ℚ :=
  if ms.isEmpty then 0
  else
    (scoreWeights.map (fun tw =>
      let vs := (ms.filter (fun m => categoryKey m.name == tw.1)).map
        (fun m => m.value)
      if vs.isEmpty then 0 else vs.sum / (vs.length : ℚ) * tw.2)).sum

/-- Quality report of `run_all_checks` (`reports.QualityReport`): the
wall-clock timestamp and the issue list are reporting side data no claim
depends on and are not modelled. -/
structure QualityReport where
  total_records : ℕ
  total_columns : ℕ
  metrics : List QualityMetric
  overall_score : ℚ
deriving DecidableEq, Repr

/-- DataQualityChecker.run_all_checks (`quality_checker.py`, lines
389-417): run the five check families in order, concatenate their metric
lists and aggregate the overall score.  `now` stands for the evaluation
instant `datetime.now()` / `pd.Timestamp.now()`, as a day count. -/
def runAllChecks (now : ℤ) (df : DF) : QualityReport :=
  let ms := checkCompleteness df ++ checkAccuracy df ++
    checkConsistency df ++ checkValidity df ++ checkTimeliness now df
  { total_records := nRows df
    total_columns := df.length
    metrics := ms
    overall_score := calculateOverallScore ms }

/-- Modelled from the spec: average of the values of the metrics of one
category, a category being the set of metrics whose name's first token
(truncated at the first underscore) equals the category name; zero for a
category with no matching metrics. -/
def specCategoryScore (ms : List QualityMetric) (cat : String) : ℚ :=
  let vs := (ms.filter (fun m => categoryKey m.name == cat)).map
    (fun m => m.value)
  if vs.isEmpty then 0 else vs.sum / (vs.length : ℚ)

/-- Modelled from the spec: the overall score as §4.4 words it — the
weighted sum `0.25·completeness + 0.25·accuracy + 0.20·consistency +
0.20·validity + 0.10·timeliness` of the per-category averages, a category
with zero metrics contributing zero, without renormalization. -/
def specOverallScore (ms : List QualityMetric) : ℚ :=
  25 / 100 * specCategoryScore ms "completeness" +
  25 / 100 * specCategoryScore ms "accuracy" +
  20 / 100 * specCategoryScore ms "consistency" +
  20 / 100 * specCategoryScore ms "validity" +
  10 / 100 * specCategoryScore ms "timeliness"

/-- Cache directory state of `CacheManager`: for each key (file name stem)
the save instant (file modification time) and the stored value.  `get` /
`set` thread this state explicitly; I/O failures are injected through the
`readFails` / `writeFails` oracles, standing for the exceptions the source
catches. -/
abbrev CacheState (V : Type) : Type := List (String × ℤ × V)

/-- File-existence check plus read of the entry for a key. -/
def cacheLookup {V : Type} (st : CacheState V) (key : String) :
    Option (ℤ × V) :=
  (st.find? (fun e => e.1 == key)).map (fun e => e.2)

/-- File removal `os.remove` of one cache entry. -/
def eraseKey {V : Type} (st : CacheState V) (key : String) : CacheState V :=
  st.filter (fun e => !(e.1 == key))

/-- CacheManager.get (`cache_manager.py`, lines 67-95): `none` when the
entry is absent; when the entry is older than the time-to-live (strict
`>`), it is removed and `none` is returned; a read error (`readFails`,
the caught `pickle.load`/IO exception) yields `none` with the state
unchanged; otherwise the stored value is returned. -/
def cacheGet {V : Type} (ttl : ℤ) (readFails : String → Bool)
    (st : CacheState V) (now : ℤ) (key : String) :
    Option V × CacheState V :=
  match cacheLookup st key with
  | none => (none, st)
  | some (t, v) =>
    if now - t > ttl then (none, eraseKey st key)
    else if readFails key then (none, st)
    else (some v, st)

/-- CacheManager.set (`cache_manager.py`, lines 97-111): store the value
under the key (overwriting the file); a write error (`writeFails`, the
caught `pickle.dump`/IO exception) leaves the state unchanged and is only
logged. -/
def cacheSet {V : Type} (writeFails : String → Bool) (st : CacheState V)
    (now : ℤ) (key : String) (v : V) : CacheState V :=
  if writeFails key then st
  else (key, now, v) :: eraseKey st key

/-- Injective code of an integer, used by the stand-in row hash. -/
def intCode (z : ℤ) : ℕ :=
  if z < 0 then 2 * z.natAbs - 1 else 2 * z.natAbs

/-- Code of one cell, used by the stand-in row hash. -/
def cellCode : Cell → ℕ
  | Cell.num q => 4 * ((intCode q.num + q.den) * (intCode q.num + q.den + 1) / 2 + q.den) + 1
  | Cell.date d => 4 * intCode d + 2
  | Cell.inf b => 4 * (cond b 1 0) + 3
  | Cell.null => 0

/-- Stand-in for the per-row value of `pd.util.hash_pandas_object(df)`:
a deterministic 64-bit hash of one row together with its index label.
The source's hash (a keyed SipHash) is an opaque deterministic function;
the claims under study depend only on determinism and on how the per-row
values are combined (a sum), never on the hash function itself, so a
concrete deterministic stand-in is fixed. -/
def labeledRowHash (r : ℤ × List Cell) : ℕ :=
  r.2.foldl (fun h c => (h * 1000003 + cellCode c) % 2 ^ 64)
    ((intCode r.1 * 1000003 + 7) % 2 ^ 64)

/-- Combination step of `_generate_key`:
`pd.util.hash_pandas_object(data).sum()` — the wrap-around (uint64) sum of
the per-row hash values. -/
def hashSum {α : Type} (h : α → ℕ) (rows : List α) : ℕ :=
  (rows.map h).sum % 2 ^ 64

/-- Lookup key `f"{operation}_{key}"` over a hashed row sequence, generic
in the row-hash function.  The source interposes
`hashlib.md5(str(sum).encode()).hexdigest()`, a deterministic injective
formatting of the sum that the model elides: equal sums give equal keys
either way. -/
def cacheKeyWith {α : Type} (h : α → ℕ) (op : String) (rows : List α) :
    String :=
  op ++ "_" ++ toString (hashSum h rows)

/-- CacheManager._generate_key combined with the operation name
(`cache_manager.py`, lines 33-53 and 124): the key of a labeled row
sequence under the stand-in row hash. -/
def cacheKeyRows (op : String) (rows : List (ℤ × List Cell)) : String :=
  cacheKeyWith labeledRowHash op rows

/-- View of a frame as the labeled row sequence pandas hashes: each row
paired with its index label.  Index labels are modelled positionally
(`0..n-1`), the default `RangeIndex` every frame of the analyzed flows
carries. -/
def dfHashRows (df : DF) : List (ℤ × List Cell) :=
  (List.range (nRows df)).map (fun (i : ℕ) => ((i : ℤ), rowAt df i))

/-- Cache key of a DataFrame for an operation,
`f"{operation}_{self._generate_key(df)}"`. -/
def dfKey (op : String) (df : DF) : String :=
  cacheKeyRows op (dfHashRows df)

/-- Time-to-live of the transformer's cache, `ttl_hours = 24` (the
`CacheManager` default used by `SalesDataTransformer`). -/
def cacheTTL : ℤ := 24

/-- Oracle for the error-free I/O path: no read or write ever fails. -/
def noFail : String → Bool := fun _ => false

/-- CacheManager.cache_dataframe (`cache_manager.py`, lines 113-131):
look up the result cached for an operation under the key generated from
the given frame. -/
def cacheDataframe (st : CacheState DF) (now : ℤ) (df : DF)
    (op : String) : Option DF × CacheState DF :=
  cacheGet cacheTTL noFail st now (dfKey op df)

/-- CacheManager.save_dataframe (`cache_manager.py`, lines 133-143):
store `result` under the key generated from `df`. -/
def saveDataframe (st : CacheState DF) (now : ℤ) (df : DF) (op : String)
    (result : DF) : CacheState DF :=
  cacheSet noFail st now (dfKey op df) result

/-- One cache-wrapped stage of `SalesDataTransformer` (the shared shape of
`clean_data`, `validate_dates`, `calculate_metrics`,
`standardize_columns`): return the cached result when present; otherwise
run the stage body and save its result.  The save call of the source is
`save_dataframe(df.copy(), op, df)` *after* `df` has been rebound to the
result, so the save key is generated from the result frame — modelled
exactly as written.  The boolean records whether the stage body ran (true)
or the result came from the cache (false). -/
def cachedStage (now : ℤ) (st : CacheState DF) (op : String)
    (f : DF → Option DF) (df : DF) : Option (DF × CacheState DF × Bool) :=
  match cacheDataframe st now df op with
  | (some r, st1) => some (r, st1, false)
  | (none, st1) =>
    match f df with
    | none => none
    | some r => some (r, saveDataframe st1 now r op r, true)

/-- SalesDataTransformer.transform (`transform.py`, lines 21-49): check
the cache under `"full_transform"`; on a miss run the four cache-wrapped
stages and save the final result — under the key generated from the
result frame (`save_dataframe(df.copy(), "full_transform", df)` after the
rebinding of `df`), exactly as the source does.  The returned string list
names the stage bodies that actually executed, empty on a
`full_transform` cache hit. -/
def transform (now : ℤ) (st : CacheState DF) (df : DF) :
    Option (DF × CacheState DF × List String) :=
  match cacheDataframe st now df "full_transform" with
  | (some r, st1) => some (r, st1, [])
  | (none, st1) => do
    let (d1, st2, b1) ← cachedStage now st1 "clean_data" cleanData df
    let (d2, st3, b2) ← cachedStage now st2 "validate_dates"
      (validateDates now) d1
    let (d3, st4, b3) ← cachedStage now st3 "calculate_metrics"
      calculateMetrics d2
    let (d4, st5, b4) ← cachedStage now st4 "standardize_columns"
      (fun x => some (standardizeCols x)) d3
    pure (d4, saveDataframe st5 now d4 "full_transform" d4,
      (if b1 then ["clean_data"] else []) ++
      (if b2 then ["validate_dates"] else []) ++
      (if b3 then ["calculate_metrics"] else []) ++
      (if b4 then ["standardize_columns"] else []))

/-- Example dataset of the specification (§8): three rows with
`quantity = [10, 20, 30]`, `unit_price = [5, 5, 5]`,
`discount = [0, 0, 0]`, `total_sales = [50, 100, 150]`, all dates equal to
`today` and `product_id = [1, 2, 3]`. -/
def exampleDF (today : ℤ) : DF :=
  [("quantity", [Cell.num 10, Cell.num 20, Cell.num 30]),
   ("unit_price", [Cell.num 5, Cell.num 5, Cell.num 5]),
   ("discount", [Cell.num 0, Cell.num 0, Cell.num 0]),
   ("total_sales", [Cell.num 50, Cell.num 100, Cell.num 150]),
   ("date", [Cell.date today, Cell.date today, Cell.date today]),
   ("product_id", [Cell.num 1, Cell.num 2, Cell.num 3])]

/-- Example dataset with its first row appended again (the duplicate-row
scenario of the specification). -/
def exampleDupDF (today : ℤ) : DF :=
  [("quantity", [Cell.num 10, Cell.num 20, Cell.num 30, Cell.num 10]),
   ("unit_price", [Cell.num 5, Cell.num 5, Cell.num 5, Cell.num 5]),
   ("discount", [Cell.num 0, Cell.num 0, Cell.num 0, Cell.num 0]),
   ("total_sales", [Cell.num 50, Cell.num 100, Cell.num 150, Cell.num 50]),
   ("date", [Cell.date today, Cell.date today, Cell.date today,
             Cell.date today]),
   ("product_id", [Cell.num 1, Cell.num 2, Cell.num 3, Cell.num 1])]

/-- Eleven-row dataset distinguishing the sample from the population
standard deviation in the outlier filter: `quantity` holds one 10, one 1
and nine 0s; the other columns are constant. -/
def elevenRowDF : DF :=
  [("quantity", [Cell.num 10, Cell.num 1, Cell.num 0, Cell.num 0,
                 Cell.num 0, Cell.num 0, Cell.num 0, Cell.num 0,
                 Cell.num 0, Cell.num 0, Cell.num 0]),
   ("unit_price", List.replicate 11 (Cell.num 5)),
   ("discount", List.replicate 11 (Cell.num 0)),
   ("total_sales", List.replicate 11 (Cell.num 50))]

/-! ## Helper lemmas on the frame operations -/

/-- Frame with the same column names and every column emptied — the result
of filtering out every row. -/
def emptyCols (df : DF) : DF :=
  df.map (fun c => (c.1, ([] : List Cell)))

lemma getCol_map_fst (f : String × List Cell → String × List Cell)
    (hf : ∀ c, (f c).1 = c.1) (df : DF) (n : String) :
    getCol (df.map f) n =
      (df.find? (fun c => c.1 == n)).map (fun c => (f c).2) := by
  unfold getCol
  rw [List.find?_map]
  have hpf : ((fun c : String × List Cell => c.1 == n) ∘ f) =
      (fun c : String × List Cell => c.1 == n) := by
    funext c
    simp [Function.comp, hf c]
  rw [hpf, Option.map_map]
  rfl

lemma setColFun_fst (n : String) (cs : List Cell) :
    ∀ c : String × List Cell,
      (if c.1 == n then (n, cs) else c).1 = c.1 := by
  intro c
  by_cases hc : (c.1 == n) = true
  · simp only [hc, if_true]
    exact (eq_of_beq hc).symm
  · simp [hc]

lemma find?_of_hasCol (df : DF) (n : String) (h : hasCol df n = true) :
    ∃ c, df.find? (fun c => c.1 == n) = some c ∧ (c.1 == n) = true := by
  have hs : (df.find? (fun c => c.1 == n)).isSome := by
    rw [List.find?_isSome]
    simpa [hasCol, List.any_eq_true] using h
  obtain ⟨c, hc⟩ := Option.isSome_iff_exists.mp hs
  have hp := List.find?_some hc
  exact ⟨c, hc, by simpa using hp⟩

lemma getCol_of_hasCol (df : DF) (n : String) (h : hasCol df n = true) :
    ∃ cs, getCol df n = some cs := by
  obtain ⟨c, hc, _⟩ := find?_of_hasCol df n h
  exact ⟨c.2, by simp [getCol, hc]⟩

lemma hasCol_of_getCol_some (df : DF) (n : String) (cs : List Cell)
    (h : getCol df n = some cs) : hasCol df n = true := by
  unfold getCol at h
  cases hfind : df.find? (fun c => c.1 == n) with
  | none => rw [hfind] at h; cases h
  | some c =>
    have hmem := List.mem_of_find?_eq_some hfind
    have hp := List.find?_some hfind
    simp only [hasCol, List.any_eq_true]
    exact ⟨c, hmem, hp⟩

lemma getCol_setCol_self (df : DF) (n : String) (cs : List Cell) :
    getCol (setCol df n cs) n = some cs := by
  unfold setCol
  split
  next h =>
    rw [getCol_map_fst _ (setColFun_fst n cs)]
    obtain ⟨c, hfind, hcn⟩ := find?_of_hasCol df n h
    rw [hfind]
    have hc1 : c.1 = n := eq_of_beq hcn
    simp [hc1]
  next h =>
    unfold getCol
    rw [List.find?_append]
    have h1 : df.find? (fun c => c.1 == n) = none := by
      rw [List.find?_eq_none]
      intro x hx
      simp only [hasCol, List.any_eq_true, not_exists] at h
      push_neg at h
      simpa using h x hx
    rw [h1]
    simp

lemma getCol_setCol_diff (df : DF) (n m : String) (cs : List Cell)
    (hnm : (m == n) = false) :
    getCol (setCol df n cs) m = getCol df m := by
  unfold setCol
  split
  next h =>
    rw [getCol_map_fst _ (setColFun_fst n cs)]
    unfold getCol
    cases hfind : df.find? (fun c => c.1 == m) with
    | none => simp
    | some c =>
      have hcm : (c.1 == m) = true := by
        have hp := List.find?_some hfind
        simpa using hp
      have hcn : (c.1 == n) = false := by
        have hm : c.1 = m := eq_of_beq hcm
        have : m ≠ n := by simpa using hnm
        simp [hm, this]
      have hne : c.1 ≠ n := by simpa using hcn
      simp [hne]
  next h =>
    unfold getCol
    rw [List.find?_append]
    have h2 : ([(n, cs)] : DF).find? (fun c => c.1 == m) = none := by
      have : (n == m) = false := by
        have : m ≠ n := by simpa using hnm
        simpa using this.symm
      simp [List.find?, this]
    rw [h2]
    simp

lemma getCol_applyMask (df : DF) (mask : List Bool) (n : String) :
    getCol (applyMask df mask) n =
      (getCol df n).map (fun cs => maskList cs mask) := by
  unfold applyMask
  rw [getCol_map_fst (fun c => (c.1, maskList c.2 mask)) (fun c => rfl)]
  unfold getCol
  cases df.find? (fun c => c.1 == n) <;> simp

lemma getCol_emptyCols (df : DF) (n : String) :
    getCol (emptyCols df) n =
      (getCol df n).map (fun _ => ([] : List Cell)) := by
  unfold emptyCols
  rw [getCol_map_fst (fun c => (c.1, ([] : List Cell))) (fun c => rfl)]
  unfold getCol
  cases df.find? (fun c => c.1 == n) <;> simp

lemma emptyCols_idem (df : DF) : emptyCols (emptyCols df) = emptyCols df := by
  simp [emptyCols, List.map_map, Function.comp]

lemma emptyCols_setCol (df : DF) (n : String) (cs : List Cell)
    (h : hasCol df n = true) :
    emptyCols (setCol df n cs) = emptyCols df := by
  unfold setCol emptyCols
  rw [if_pos h, List.map_map]
  congr 1
  funext c
  by_cases hc : c.1 = n
  · simp [Function.comp, hc]
  · simp [Function.comp, hc]

lemma maskList_nil_mask (cs : List Cell) : maskList cs [] = [] := by
  cases cs <;> simp [maskList]

lemma maskList_single_false (cs : List Cell) : maskList cs [false] = [] := by
  cases cs with
  | nil => rfl
  | cons a t => simp [maskList]

lemma applyMask_single_false (df : DF) :
    applyMask df [false] = emptyCols df := by
  unfold applyMask emptyCols
  simp only [maskList_single_false]

lemma applyMask_nil (df : DF) : applyMask df [] = emptyCols df := by
  unfold applyMask emptyCols
  simp only [maskList_nil_mask]

lemma keepCell_var_none (m : ℚ) (v : Option ℚ) :
    keepCell m v none = false := by
  cases v <;> rfl

lemma fillCells_length (cs : List Cell) (v : ℚ) :
    (fillCells cs v).length = cs.length := by
  simp [fillCells]

lemma fillWithMean_length (cs : List Cell) :
    (fillWithMean cs).length = cs.length := by
  unfold fillWithMean
  cases meanOpt cs <;> simp [fillCells]

lemma sampleVarOpt_short (cs : List Cell) (h : cs.length ≤ 1) :
    sampleVarOpt cs = none := by
  unfold sampleVarOpt numsOf
  have hlen : (cs.filterMap toNum).length ≤ 1 :=
    le_trans (List.length_filterMap_le _ _) h
  simp [hlen]

lemma getCol_length (df : DF) (n : String) (cs : List Cell)
    (hA : alignedB df = true) (h : getCol df n = some cs) :
    cs.length = nRows df := by
  unfold getCol at h
  cases hfind : df.find? (fun c => c.1 == n) with
  | none => rw [hfind] at h; cases h
  | some c =>
    rw [hfind] at h
    have hcs : c.2 = cs := by simpa using h
    have hmem := List.mem_of_find?_eq_some hfind
    unfold alignedB at hA
    rw [List.all_eq_true] at hA
    have := hA c hmem
    rw [← hcs]
    simpa using this

lemma outlierPass_single (df : DF) (col : String) (cells : List Cell)
    (hcol : getCol df col = some cells) (hlen : cells.length = 1) :
    outlierPassWith sampleVarOpt df col = some (emptyCols df) := by
  unfold outlierPassWith
  rw [hcol]
  obtain ⟨a, ha⟩ := List.length_eq_one.mp hlen
  subst ha
  simp [sampleVarOpt_short [a] (by simp), keepCell_var_none,
    applyMask_single_false]

lemma outlierPass_on_empty (df : DF) (col : String)
    (hcol : getCol df col = some ([] : List Cell)) :
    outlierPassWith sampleVarOpt df col = some (emptyCols df) := by
  unfold outlierPassWith
  rw [hcol]
  simp [applyMask_nil]

/-! ## Claim theorems -/

/-- Claim C3, counterexample: `clean_data` does not remove duplicate rows.
On the specification's own scenario — the example dataset with its first
row appended again — `clean` returns all four rows, the output still
contains a duplicated row, and the result differs from cleaning the
three-row original. -/
theorem cleanData_dup_counterexample :
    (cleanData (exampleDupDF 0)).map (fun out => dupCount (rowsOf out)) =
      some 1 ∧
    cleanData (exampleDupDF 0) ≠ cleanData (exampleDF 0) := by
  with_unfolding_all decide

/-- Claim C3, amended: `clean_data` performs no duplicate removal — it only
fills missing values and drops 3-sigma outliers.  Appending an exact copy
of the first row to the example dataset and cleaning returns the four-row
input unchanged, both copies retained. -/
theorem cleanData_keeps_duplicates :
    cleanData (exampleDupDF 0) = some (exampleDupDF 0) := by
  with_unfolding_all decide

/-- Claim C4, counterexample: the outlier filter does not use the
population standard deviation.  On the eleven-row dataset whose `quantity`
column is `[10, 1, 0×9]`, the extreme value sits exactly at three sample
standard deviations (kept by the source) but beyond three population
standard deviations (dropped by the specification's population-σ reading),
so the two cleanings differ. -/
theorem cleanData_not_population_sigma :
    cleanData elevenRowDF ≠ specCleanPop elevenRowDF := by
  with_unfolding_all decide

/-- Claim C4, amended: `clean_data` first fills missing values (`quantity`
0, `unit_price` its column mean, `discount` 0) and then removes outliers
sequentially per column in the order `quantity`, `unit_price`,
`total_sales`, each pass using the mean and the *sample* standard
deviation (`ddof = 1`, denominator `n − 1`, undefined for fewer than two
values — in which case every row of that pass is dropped) of the
progressively filtered column; when σ = 0 no rows are dropped for that
column.  The source computation equals the so-amended specification
algorithm on every frame. -/
theorem cleanData_eq_specCleanSamp (df : DF) :
    cleanData df = specCleanSamp df := rfl

/-- Claim C5, counterexample: the cache content hash is not
order-sensitive.  Two datasets holding the identical labeled rows in the
two opposite orders (row reordering in pandas carries each row's index
label with it) are distinct yet receive the same `full_transform` cache
key, because `_generate_key` sums the per-row hashes and the sum is
order-blind. -/
theorem cacheKey_order_counterexample :
    ([((0 : ℤ), [Cell.num 1]), ((1 : ℤ), [Cell.num 2])] :
        List (ℤ × List Cell)) ≠
      [((1 : ℤ), [Cell.num 2]), ((0 : ℤ), [Cell.num 1])] ∧
    cacheKeyRows "full_transform"
        [((0 : ℤ), [Cell.num 1]), ((1 : ℤ), [Cell.num 2])] =
      cacheKeyRows "full_transform"
        [((1 : ℤ), [Cell.num 2]), ((0 : ℤ), [Cell.num 1])] := by
  with_unfolding_all decide

/-- Claim C5, amended: the cache key is order-*insensitive* over the
hashed row sequence — for every row-hash function, operation name and
permutation of the labeled rows, the generated lookup key is unchanged,
because `_generate_key` reduces the per-row hashes with a sum.  The key
remains value-sensitive only through the individual row hashes. -/
theorem cacheKey_perm_invariant {α : Type} (h : α → ℕ) (op : String)
    (l1 l2 : List α) (hp : l1.Perm l2) :
    cacheKeyWith h op l1 = cacheKeyWith h op l2 := by
  unfold cacheKeyWith hashSum
  rw [List.Perm.sum_eq (hp.map h)]

/-- Witness for the amended claim C5 at a concrete permutation. -/
theorem cacheKey_perm_invariant_witness :
    cacheKeyWith labeledRowHash "clean_data"
        [((0 : ℤ), [Cell.num 3]), ((1 : ℤ), [Cell.num 4])] =
      cacheKeyWith labeledRowHash "clean_data"
        [((1 : ℤ), [Cell.num 4]), ((0 : ℤ), [Cell.num 3])] :=
  cacheKey_perm_invariant labeledRowHash "clean_data" _ _ (by decide)

/-- Claim C7: in the calculation-consistency check, a row whose
`total_sales` differs from `quantity × unit_price × (1 − discount)` by
exactly 0.01 is not flagged (the comparison is the strict
`> tolerance`), while a row differing by 0.02 is flagged as
inconsistent. -/
theorem consistency_tolerance_boundary (q p d t t2 : ℚ)
    (h1 : |t - q * p * (1 - d)| = 1 / 100)
    (h2 : |t2 - q * p * (1 - d)| = 2 / 100) :
    inconsistentPair (Cell.num t)
      (cMul (cMul (Cell.num q) (Cell.num p))
        (cSub (Cell.num 1) (Cell.num d))) = false ∧
    inconsistentPair (Cell.num t2)
      (cMul (cMul (Cell.num q) (Cell.num p))
        (cSub (Cell.num 1) (Cell.num d))) = true := by
  have he : cMul (cMul (Cell.num q) (Cell.num p))
      (cSub (Cell.num 1) (Cell.num d)) = Cell.num (q * p * (1 - d)) := rfl
  constructor
  · simp only [he, inconsistentPair, toNum]
    rw [h1]
    simp
  · simp only [he, inconsistentPair, toNum]
    rw [h2]
    norm_num

/-- Witness for claim C7 at concrete rows: `total_sales = 1.01` against an
expected value of 1 is consistent; `total_sales = 1.02` is flagged. -/
theorem consistency_tolerance_boundary_witness :
    inconsistentPair (Cell.num (101 / 100))
      (cMul (cMul (Cell.num 1) (Cell.num 1))
        (cSub (Cell.num 1) (Cell.num 0))) = false ∧
    inconsistentPair (Cell.num (102 / 100))
      (cMul (cMul (Cell.num 1) (Cell.num 1))
        (cSub (Cell.num 1) (Cell.num 0))) = true :=
  consistency_tolerance_boundary 1 1 0 (101 / 100) (102 / 100)
    (by norm_num) (by norm_num)

/-- Claim C9: cache operations never raise to the caller — an entry older
than the time-to-live is deleted during lookup and `none` is returned; a
read error makes `get` return `none` with the first component observed as
a miss; a write error makes `set` leave the cache state unchanged.  In
every failure case the caller observes a miss and recomputes. -/
theorem cache_failure_semantics (V : Type) (ttl : ℤ)
    (readFails writeFails : String → Bool) (st : CacheState V) (now : ℤ)
    (key : String) (t : ℤ) (v w : V) :
    (cacheLookup st key = some (t, v) → now - t > ttl →
      cacheGet ttl readFails st now key = (none, eraseKey st key)) ∧
    (readFails key = true →
      (cacheGet ttl readFails st now key).1 = none) ∧
    (writeFails key = true → cacheSet writeFails st now key w = st) := by
  refine ⟨?_, ?_, ?_⟩
  · intro hl hexp
    unfold cacheGet
    rw [hl]
    simp [hexp]
  · intro hr
    unfold cacheGet
    cases hl : cacheLookup st key with
    | none => rfl
    | some tv =>
      obtain ⟨t0, v0⟩ := tv
      by_cases hexp : now - t0 > ttl
      · simp [hexp]
      · simp [hexp, hr]
  · intro hw
    unfold cacheSet
    simp [hw]

/-- Witness for claim C9 on a one-entry cache: the entry saved at instant
0 is expired at instant 100 under a 24-hour time-to-live and gets deleted;
a failing read at instant 10 yields a miss; a failing write leaves the
state untouched. -/
theorem cache_failure_semantics_witness :
    cacheGet 24 (fun _ => true) [("k", (0 : ℤ), (5 : ℕ))] 100 "k" =
      (none, eraseKey [("k", (0 : ℤ), (5 : ℕ))] "k") ∧
    (cacheGet 24 (fun _ => true) [("k", (0 : ℤ), (5 : ℕ))] 10 "k").1 =
      none ∧
    cacheSet (fun _ => true) [("k", (0 : ℤ), (5 : ℕ))] 10 "k" 7 =
      [("k", (0 : ℤ), (5 : ℕ))] :=
  ⟨(cache_failure_semantics ℕ 24 (fun _ => true) (fun _ => true)
      [("k", 0, 5)] 100 "k" 0 5 7).1 rfl (by decide),
   (cache_failure_semantics ℕ 24 (fun _ => true) (fun _ => true)
      [("k", 0, 5)] 10 "k" 0 5 7).2.1 rfl,
   (cache_failure_semantics ℕ 24 (fun _ => true) (fun _ => true)
      [("k", 0, 5)] 10 "k" 0 5 7).2.2 rfl⟩

/-- First `transform` call on the example dataset against an empty cache. -/
def transformRun1 : Option (DF × CacheState DF × List String) :=
  transform 0 [] (exampleDF 0)

/-- Second `transform` call on the same dataset against the cache state
the first call left behind, at the same instant (no expiry). -/
def transformRun2 : Option (DF × CacheState DF × List String) :=
  match transformRun1 with
  | some x => transform 0 x.2.1 (exampleDF 0)
  | none => none

/-- Claim C6 (code-bug demonstration): calling `transform` twice on the
same dataset with no intervening expiry returns bit-identical outputs, but
the second call is *not* served from the cache under `"full_transform"`
and re-executes the `calculate_metrics` stage body.  The save call
`save_dataframe(df.copy(), op, df)` runs after `df` was rebound to the
result, so every result is stored under the key generated from the output
frame, and the second call's lookup under the key of the input frame
misses. -/
theorem transform_second_call_not_cached :
    transformRun1.map (fun x => x.2.2) =
      some ["clean_data", "validate_dates", "calculate_metrics",
        "standardize_columns"] ∧
    transformRun2.map (fun x => x.2.2) = some ["calculate_metrics"] ∧
    transformRun2.map (fun x => x.1) = transformRun1.map (fun x => x.1) := by
  with_unfolding_all decide

lemma calculateOverallScore_eq_spec (ms : List QualityMetric) :
    calculateOverallScore ms = specOverallScore ms := by
  by_cases hms : ms.isEmpty
  · have hnil : ms = [] := List.isEmpty_iff.mp hms
    subst hnil
    simp [calculateOverallScore, specOverallScore, specCategoryScore]
  · have hne : ms.isEmpty = false := Bool.not_eq_true _ |>.mp hms
    simp only [calculateOverallScore, specOverallScore, specCategoryScore,
      scoreWeights, hne, Bool.false_eq_true, if_false, List.map_cons,
      List.map_nil, List.sum_cons, List.sum_nil]
    split_ifs <;> ring

/-- Claim C2: the overall score returned by `run_all_checks` equals the
specification's aggregation of the produced metric list — group the
metrics whose category key (first token of the name truncated at the
first underscore) is one of completeness, accuracy, consistency,
validity, timeliness; average values within each category; weight them
0.25 / 0.25 / 0.20 / 0.20 / 0.10; a category with zero matching metrics
contributes zero, without renormalization.  The nonemptiness hypothesis
scopes the statement to frames on which the source computation is
defined. -/
theorem runAllChecks_score_eq_spec (now : ℤ) (df : DF)
    (h : 0 < nRows df) :
    (runAllChecks now df).overall_score =
      specOverallScore (runAllChecks now df).metrics := by
  exact calculateOverallScore_eq_spec
    (checkCompleteness df ++ checkAccuracy df ++ checkConsistency df ++
      checkValidity df ++ checkTimeliness now df)

/-- Witness for claim C2 on the example dataset. -/
theorem runAllChecks_score_eq_spec_witness :
    0 < nRows (exampleDF 0) ∧
    (runAllChecks 0 (exampleDF 0)).overall_score =
      specOverallScore (runAllChecks 0 (exampleDF 0)).metrics :=
  ⟨by decide, runAllChecks_score_eq_spec 0 (exampleDF 0) (by decide)⟩


/-- Claim C8, amended: `calculate_metrics` adds `total_sales` only when
absent (an existing column is left unchanged), and always adds
`gross_sales = quantity * unit_price`,
`discount_amount = gross_sales * discount` and
`profit_margin = (total_sales - discount_amount) / gross_sales`; on a row
with a zero `gross_sales` the margin is the missing `NaN` when the
numerator `total_sales - discount_amount` is also zero (in particular
whenever `total_sales` was computed by this stage) and the
correspondingly signed, *non-missing* infinity when the numerator is
nonzero; in every case the operation returns without raising. -/
theorem calculateMetrics_fields (df : DF) (q p d : List Cell)
    (hq : getCol df "quantity" = some q)
    (hp : getCol df "unit_price" = some p)
    (hd : getCol df "discount" = some d) :
    ∃ out t,
      calculateMetrics df = some out ∧
      getCol out "total_sales" = some t ∧
      (hasCol df "total_sales" = true → getCol df "total_sales" = some t) ∧
      (hasCol df "total_sales" = false → t = expectedTotals q p d) ∧
      getCol out "gross_sales" = some (List.zipWith cMul q p) ∧
      getCol out "discount_amount" =
        some (List.zipWith cMul (List.zipWith cMul q p) d) ∧
      getCol out "profit_margin" =
        some (List.zipWith cDiv
          (List.zipWith cSub t
            (List.zipWith cMul (List.zipWith cMul q p) d))
          (List.zipWith cMul q p)) ∧
      (∀ v : ℚ, cDiv (Cell.num v) (Cell.num 0) =
        if v = 0 then Cell.null else Cell.inf (decide (0 < v))) := by
  have hdvz : ∀ v : ℚ, cDiv (Cell.num v) (Cell.num 0) =
      if v = 0 then Cell.null else Cell.inf (decide (0 < v)) := by
    intro v
    simp [cDiv, toNum]
  by_cases hTot : hasCol df "total_sales" = true
  · obtain ⟨t, ht⟩ := getCol_of_hasCol df "total_sales" hTot
    refine ⟨setCol
        (setCol (setCol df "gross_sales" (List.zipWith cMul q p))
          "discount_amount" (List.zipWith cMul (List.zipWith cMul q p) d))
        "profit_margin"
        (List.zipWith cDiv
          (List.zipWith cSub t
            (List.zipWith cMul (List.zipWith cMul q p) d))
          (List.zipWith cMul q p)),
      t, ?_, ?_, fun _ => ht, ?_, ?_, ?_, ?_, hdvz⟩
    · simp only [calculateMetrics, hTot, if_true, Option.pure_def,
        Option.bind_eq_bind, Option.some_bind, hq, hp, hd, ht,
        getCol_setCol_self, getCol_setCol_diff, String.reduceBEq]
    · rw [getCol_setCol_diff _ _ _ _ (by decide),
          getCol_setCol_diff _ _ _ _ (by decide),
          getCol_setCol_diff _ _ _ _ (by decide)]
      exact ht
    · intro hf
      rw [hTot] at hf
      cases hf
    · rw [getCol_setCol_diff _ _ _ _ (by decide),
          getCol_setCol_diff _ _ _ _ (by decide)]
      exact getCol_setCol_self _ _ _
    · rw [getCol_setCol_diff _ _ _ _ (by decide)]
      exact getCol_setCol_self _ _ _
    · exact getCol_setCol_self _ _ _
  · have hTf : hasCol df "total_sales" = false := by
      simpa using hTot
    refine ⟨setCol
        (setCol
          (setCol (setCol df "total_sales" (expectedTotals q p d))
            "gross_sales" (List.zipWith cMul q p))
          "discount_amount" (List.zipWith cMul (List.zipWith cMul q p) d))
        "profit_margin"
        (List.zipWith cDiv
          (List.zipWith cSub (expectedTotals q p d)
            (List.zipWith cMul (List.zipWith cMul q p) d))
          (List.zipWith cMul q p)),
      expectedTotals q p d, ?_, ?_, ?_, fun _ => rfl, ?_, ?_, ?_, hdvz⟩
    · simp only [calculateMetrics, hTf, Bool.false_eq_true, if_false,
        Option.pure_def, Option.bind_eq_bind, Option.some_bind,
        hq, hp, hd, getCol_setCol_self, getCol_setCol_diff,
        String.reduceBEq]
    · rw [getCol_setCol_diff _ _ _ _ (by decide),
          getCol_setCol_diff _ _ _ _ (by decide),
          getCol_setCol_diff _ _ _ _ (by decide),
          getCol_setCol_self]
    · intro htr
      rw [hTf] at htr
      cases htr
    · rw [getCol_setCol_diff _ _ _ _ (by decide),
          getCol_setCol_diff _ _ _ _ (by decide)]
      exact getCol_setCol_self _ _ _
    · rw [getCol_setCol_diff _ _ _ _ (by decide)]
      exact getCol_setCol_self _ _ _
    · exact getCol_setCol_self _ _ _

/-- Concrete frame for the claim C8 witness: no `total_sales` column and a
row with `gross_sales = 0`. -/
def metricsWitnessDF : DF :=
  [("quantity", [Cell.num 2, Cell.num 0]),
   ("unit_price", [Cell.num 0, Cell.num 3]),
   ("discount", [Cell.num (1 / 2), Cell.num 0])]

/-- Witness for claim C8 at a concrete frame. -/
theorem calculateMetrics_fields_witness :
    ∃ out t,
      calculateMetrics metricsWitnessDF = some out ∧
      getCol out "total_sales" = some t ∧
      (hasCol metricsWitnessDF "total_sales" = true →
        getCol metricsWitnessDF "total_sales" = some t) ∧
      (hasCol metricsWitnessDF "total_sales" = false →
        t = expectedTotals [Cell.num 2, Cell.num 0]
          [Cell.num 0, Cell.num 3] [Cell.num (1 / 2), Cell.num 0]) ∧
      getCol out "gross_sales" =
        some (List.zipWith cMul [Cell.num 2, Cell.num 0]
          [Cell.num 0, Cell.num 3]) ∧
      getCol out "discount_amount" =
        some (List.zipWith cMul
          (List.zipWith cMul [Cell.num 2, Cell.num 0]
            [Cell.num 0, Cell.num 3])
          [Cell.num (1 / 2), Cell.num 0]) ∧
      getCol out "profit_margin" =
        some (List.zipWith cDiv
          (List.zipWith cSub t
            (List.zipWith cMul
              (List.zipWith cMul [Cell.num 2, Cell.num 0]
                [Cell.num 0, Cell.num 3])
              [Cell.num (1 / 2), Cell.num 0]))
          (List.zipWith cMul [Cell.num 2, Cell.num 0]
            [Cell.num 0, Cell.num 3])) ∧
      (∀ v : ℚ, cDiv (Cell.num v) (Cell.num 0) =
        if v = 0 then Cell.null else Cell.inf (decide (0 < v))) :=
  calculateMetrics_fields metricsWitnessDF [Cell.num 2, Cell.num 0]
    [Cell.num 0, Cell.num 3] [Cell.num (1 / 2), Cell.num 0] rfl rfl rfl

/-- One-row frame with a zero `gross_sales` (`quantity = 0`) but a nonzero
pre-existing `total_sales` of 100, the configuration on which the margin
division produces an infinity rather than a missing value. -/
def infMarginDF : DF :=
  [("quantity", [Cell.num 0]), ("unit_price", [Cell.num 5]),
   ("discount", [Cell.num 0]), ("total_sales", [Cell.num 100])]

/-- Claim C8, counterexample: on a row whose `gross_sales` is 0 but whose
pre-existing `total_sales` is a nonzero 100, `calculate_metrics` fills
`profit_margin` with `+inf` — float division of the nonzero numerator
`total_sales - discount_amount = 100` by zero — which is a present,
non-missing value (`pd.isna(inf)` is false), refuting the claim that the
margin is undefined/missing on every zero-`gross_sales` row; the
operation still does not raise. -/
theorem calculateMetrics_inf_counterexample :
    (calculateMetrics infMarginDF).bind
      (fun out => getCol out "gross_sales") = some [Cell.num 0] ∧
    (calculateMetrics infMarginDF).bind
      (fun out => getCol out "profit_margin") = some [Cell.inf true] ∧
    Cell.inf true ≠ Cell.null := by
  with_unfolding_all decide

/-- Single-row frame lacking the `discount` column. -/
def singleRowNoDiscountDF : DF :=
  [("quantity", [Cell.num 7]), ("unit_price", [Cell.num 3]),
   ("total_sales", [Cell.num 21])]

/-- Claim C10, counterexample: a one-row dataset carrying the `quantity`,
`unit_price` and `total_sales` columns the claim lists — but no
`discount` column — makes `clean_data` raise a `KeyError` at the
`discount` fill step (modelled as `none`) instead of returning a
zero-row dataset. -/
theorem cleanData_single_row_counterexample :
    nRows singleRowNoDiscountDF = 1 ∧
    hasCol singleRowNoDiscountDF "quantity" = true ∧
    hasCol singleRowNoDiscountDF "unit_price" = true ∧
    hasCol singleRowNoDiscountDF "total_sales" = true ∧
    cleanData singleRowNoDiscountDF = none := by
  with_unfolding_all decide

/-- Claim C10, amended: on every aligned one-row frame carrying the
`quantity`, `unit_price`, `total_sales` *and* `discount` columns (the
fill step reads `discount` unconditionally), `clean_data` returns the
frame with every row dropped: the sample standard deviation of the
single-element `quantity` column is undefined, the keep-condition
compares against an undefined bound and is false, and the sole row is
dropped in the first outlier pass. -/
theorem cleanData_single_row (df : DF)
    (hA : alignedB df = true) (h1 : nRows df = 1)
    (hq : hasCol df "quantity" = true)
    (hp : hasCol df "unit_price" = true)
    (hd : hasCol df "discount" = true)
    (ht : hasCol df "total_sales" = true) :
    cleanData df = some (emptyCols df) := by
  obtain ⟨q, hq'⟩ := getCol_of_hasCol df _ hq
  obtain ⟨p, hp'⟩ := getCol_of_hasCol df _ hp
  obtain ⟨d, hd'⟩ := getCol_of_hasCol df _ hd
  obtain ⟨t, ht'⟩ := getCol_of_hasCol df _ ht
  have hqlen : q.length = 1 := by
    rw [getCol_length df _ q hA hq', h1]
  have hp1 : getCol (setCol df "quantity" (fillCells q 0)) "unit_price" =
      some p := by
    rw [getCol_setCol_diff _ _ _ _ (by decide)]
    exact hp'
  have hd2 : getCol (setCol (setCol df "quantity" (fillCells q 0))
      "unit_price" (fillWithMean p)) "discount" = some d := by
    rw [getCol_setCol_diff _ _ _ _ (by decide),
        getCol_setCol_diff _ _ _ _ (by decide)]
    exact hd'
  have hq3 : getCol (setCol (setCol (setCol df "quantity" (fillCells q 0))
      "unit_price" (fillWithMean p)) "discount" (fillCells d 0))
      "quantity" = some (fillCells q 0) := by
    rw [getCol_setCol_diff _ _ _ _ (by decide),
        getCol_setCol_diff _ _ _ _ (by decide)]
    exact getCol_setCol_self _ _ _
  have hlen3 : (fillCells q 0).length = 1 := by
    rw [fillCells_length]
    exact hqlen
  have hpass1 : outlierPassWith sampleVarOpt
      (setCol (setCol (setCol df "quantity" (fillCells q 0))
        "unit_price" (fillWithMean p)) "discount" (fillCells d 0))
      "quantity" =
      some (emptyCols (setCol (setCol (setCol df "quantity"
        (fillCells q 0)) "unit_price" (fillWithMean p)) "discount"
        (fillCells d 0))) :=
    outlierPass_single _ _ (fillCells q 0) hq3 hlen3
  have hpass2 : outlierPassWith sampleVarOpt (emptyCols df)
      "unit_price" = some (emptyCols (emptyCols df)) :=
    outlierPass_on_empty _ _ (by rw [getCol_emptyCols, hp']; rfl)
  have hpass3 : outlierPassWith sampleVarOpt (emptyCols df)
      "total_sales" = some (emptyCols (emptyCols df)) :=
    outlierPass_on_empty _ _ (by rw [getCol_emptyCols, ht']; rfl)
  have hfinal : emptyCols (setCol (setCol (setCol df "quantity"
      (fillCells q 0)) "unit_price" (fillWithMean p)) "discount"
      (fillCells d 0)) = emptyCols df := by
    rw [emptyCols_setCol _ _ _ (hasCol_of_getCol_some _ _ _ hd2),
        emptyCols_setCol _ _ _ (hasCol_of_getCol_some _ _ _ hp1),
        emptyCols_setCol _ _ _ hq]
  simp only [cleanData, Option.bind_eq_bind, Option.some_bind, hq', hp1,
    hd2, hpass1, hfinal, hpass2, hpass3, emptyCols_idem]

/-- Single-row frame with all four columns used by `clean_data`. -/
def singleRowDF : DF :=
  [("quantity", [Cell.num 7]), ("unit_price", [Cell.num 3]),
   ("discount", [Cell.num 0]), ("total_sales", [Cell.num 21])]

/-- Witness for the amended claim C10 at a concrete one-row frame. -/
theorem cleanData_single_row_witness :
    alignedB singleRowDF = true ∧ nRows singleRowDF = 1 ∧
    cleanData singleRowDF = some (emptyCols singleRowDF) :=
  ⟨by decide, by decide,
   cleanData_single_row singleRowDF (by decide) (by decide) (by decide)
     (by decide) (by decide) (by decide)⟩

/-- Claim C1, counterexample: on the specification's concrete three-row
dataset (no duplicates, no missing values, consistent totals, current
dates), `run_all_checks` does *not* report an overall score of 100 — the
category key `name.split("_")[0]` never matches accuracy, consistency or
validity (their metrics are named `date_accuracy`,
`numeric_accuracy_*`, `calculation_consistency`, `uniqueness`,
`*_validity`), so those weights contribute nothing. -/
theorem runAllChecks_example_not_100 :
    (runAllChecks 0 (exampleDF 0)).overall_score ≠ 100 := by
  with_unfolding_all decide

/-- Claim C1, amended: for the concrete three-row dataset of the
specification with all dates equal to the evaluation instant, the overall
score of `run_all_checks` equals 35 — only the `completeness_*` metrics
(average 100, weight 0.25) and the `timeliness` metric (100, weight 0.10)
match their category keys; every other weight finds no metric and
contributes zero. -/
theorem runAllChecks_example_35 (today : ℤ) :
    (runAllChecks today (exampleDF today)).overall_score = 35 := by
  have hdn : ∀ z : ℤ, (Cell.date z == Cell.null) = false := fun z => rfl
  have hnn : ∀ x : ℚ, (Cell.num x == Cell.null) = false := fun x => rfl
  have hfut : (decide (today < today)) = false := by simp
  have hold : (decide (today < today - 30)) = false := by
    simp only [decide_eq_false_iff_not, not_lt]
    omega
  simp only [runAllChecks, exampleDF, checkCompleteness, checkAccuracy,
    checkConsistency, checkValidity, checkTimeliness, getCol, hasCol,
    nRows, toDate, toNum, List.find?, List.any, List.map, List.length,
    List.countP_cons, List.countP_nil, List.sum_cons, List.sum_nil,
    hdn, hnn, hfut, hold, rowsOf, rowAt, List.range, List.range.loop,
    dupCount, dupCountAux, List.mem_cons, List.not_mem_nil,
    List.getD, List.get?, Option.isNone, List.zip, List.zipWith,
    expectedTotals, cMul, cSub, inconsistentPair, String.reduceBEq,
    String.reduceEq, eq_self_iff_true, Option.map_some', Option.getD_some,
    List.cons.injEq, Cell.num.injEq, Cell.date.injEq, reduceCtorEq,
    List.filterMap_cons, List.filterMap_nil, Bool.not_false,
    Bool.false_eq_true, if_true, if_false, ite_true, ite_false,
    and_true, true_and, and_false, false_and, or_true, true_or,
    or_false, false_or, Bool.true_or, Bool.or_true, Bool.false_or,
    Bool.or_false]
  with_unfolding_all decide
